import Mathlib

/-!
Verification of the file-reservation guard scripts of `mcp_agent_mail`
(`src/mcp_agent_mail/guard.py`).

The two generated boundary scripts (pre-commit, pre-push) are shallowly
embedded as pure Lean functions.  External effects are passed in
explicitly:

* environment variables as `Option String` fields of `Env`;
* the stdout of each version-control subprocess as an `Option String`
  (`none` models the call raising, i.e. a nonzero exit or spawn failure);
* the reservation directory as a flag for existence plus a list of
  parse results, `none` modelling a file whose read or JSON parse raised;
* `datetime.fromisoformat` as an oracle `String → Option Int` together
  with an abstract current instant `now : Int` (only the order relation
  between parsed timestamps and `now` matters to the scripts).

String helpers mirror the Python string methods used by the scripts
(`split("\x00")`, `splitlines()`, `split()`, `strip()`, `lower()`), and
`fnmatchcase` implements the `fnmatch` glob language (`*`, `?`, `[...]`
classes with `!` negation and ranges; an unterminated `[` is a literal).
On POSIX `fnmatch.fnmatch` equals `fnmatch.fnmatchcase` because
`os.path.normcase` is the identity there, which is how the commit-time
script's matcher is modelled.
-/

namespace AgentMailGuard

/-- Python `s.strip()`: drop leading and trailing whitespace.
(Structural recursion over the character list, so that concrete
evaluations reduce inside the kernel.) -/
def pyStrip (s : String) : String :=
  ⟨((s.data.dropWhile Char.isWhitespace).reverse.dropWhile Char.isWhitespace).reverse⟩

/-- Python `s.lower()` for the ASCII strings the scripts compare. -/
def pyLower (s : String) : String :=
  ⟨s.data.map Char.toLower⟩

/-- Split on a single separator character, keeping empty chunks, like
Python `s.split(sep)` for a one-character `sep`. -/
def splitCharAux (sep : Char) : List Char → List Char → List String
  | [], acc => [⟨acc.reverse⟩]
  | c :: cs, acc =>
      if c == sep then ⟨acc.reverse⟩ :: splitCharAux sep cs []
      else splitCharAux sep cs (c :: acc)

/-- Python `s.split(sep)` for a one-character separator. -/
def splitOnChar (sep : Char) (s : String) : List String :=
  splitCharAux sep s.data []

/-- Python `(value or default)` applied to the result of
`os.environ.get(name, default)`: an unset variable yields the default,
and an empty string is falsy so it also yields the default. -/
def pyOrDefault (v : Option String) (dflt : String) : String :=
  let s := v.getD dflt
  if s == "" then dflt else s

/-- The truthy set used by both scripts for the gate and bypass
variables: `(... or "0").strip().lower() in {"1","true","t","yes","y"}`. -/
def truthy (v : Option String) : Bool :=
  (["1", "true", "t", "yes", "y"]).contains (pyLower (pyStrip (pyOrDefault v ("0"))))

/-- The environment variables read by the generated scripts. -/
structure Env where
  worktrees_enabled : Option String
  guard_mode : Option String
  bypass : Option String
  agent_name : Option String

/-- `WORKTREES_ENABLED` gate (guard.py lines 44 and 159). -/
def gateEnabled (env : Env) : Bool :=
  truthy env.worktrees_enabled

/-- `AGENT_MAIL_BYPASS` emergency bypass (guard.py lines 52 and 163). -/
def bypassEnabled (env : Env) : Bool :=
  truthy env.bypass

/-- `MODE = (os.environ.get("AGENT_MAIL_GUARD_MODE","block") or "block").strip().lower()`. -/
def modeOf (env : Env) : String :=
  pyLower (pyStrip (pyOrDefault env.guard_mode ("block")))

/-- `ADVISORY = MODE in {"warn","advisory","adv"}`. -/
def advisoryOf (env : Env) : Bool :=
  (["warn", "advisory", "adv"]).contains (modeOf env)

/-- `AGENT_NAME = os.environ.get("AGENT_NAME"); if not AGENT_NAME: ...`:
missing means unset or the empty string. -/
def agentMissing (env : Env) : Bool :=
  match env.agent_name with
  | none => true
  | some s => s == ""

/-- Membership of a character in the body of a parsed `[...]` class,
with `a-b` ranges; a trailing or leading `-` is a literal. -/
def memClass : List Char → Char → Bool
  | [], _ => false
  | a :: '-' :: b :: rest, c => (decide (a ≤ c) && decide (c ≤ b)) || memClass rest c
  | a :: rest, c => (a == c) || memClass rest c

/-- Scan a bracket-class body up to the closing `]`.  A `]` in first
position belongs to the class.  Returns the class content and the rest
of the pattern, or `none` when the class is unterminated. -/
def scanClass : Bool → List Char → Option (List Char × List Char)
  | _, [] => none
  | first, ']' :: cs =>
      if first then
        match scanClass false cs with
        | some (con, rest) => some (']' :: con, rest)
        | none => none
      else some ([], cs)
  | _, c :: cs =>
      match scanClass false cs with
      | some (con, rest) => some (c :: con, rest)
      | none => none

/-- Fuel-indexed glob matcher: pattern against string.  Every recursive
call strictly shrinks pattern-length plus string-length, so fuel equal
to that sum plus one never runs out (the fuel-exhausted value `false`
is unreachable from `fnmatchcase`). -/
def globMatchF : Nat → List Char → List Char → Bool
  | 0, _, _ => false
  | _ + 1, [], s => s.isEmpty
  | fuel + 1, '*' :: ps, s =>
      globMatchF fuel ps s ||
        (match s with
         | [] => false
         | _ :: s2 => globMatchF fuel ('*' :: ps) s2)
  | fuel + 1, '?' :: ps, s =>
      (match s with
       | [] => false
       | _ :: s2 => globMatchF fuel ps s2)
  | fuel + 1, '[' :: ps, s =>
      (let neg : Bool := match ps with | '!' :: _ => true | _ => false
       let body : List Char := match ps with | '!' :: t => t | _ => ps
       match scanClass true body with
       | some (content, rest) =>
           (match s with
            | [] => false
            | c :: s2 => (neg != memClass content c) && globMatchF fuel rest s2)
       | none =>
           (match s with
            | [] => false
            | c :: s2 => (c == '[') && globMatchF fuel ps s2))
  | fuel + 1, p :: ps, s =>
      (match s with
       | [] => false
       | c :: s2 => (p == c) && globMatchF fuel ps s2)

/-- `fnmatch.fnmatchcase(name, pat)`. -/
def fnmatchcase (name pat : String) : Bool :=
  globMatchF (pat.data.length + name.data.length + 1) pat.data name.data

/-- `fnmatch.fnmatch(name, pat)`; equal to `fnmatchcase` on POSIX where
`os.path.normcase` is the identity. -/
def fnmatch (name pat : String) : Bool :=
  fnmatchcase name pat

/-- Python `data.split("\x00")`. -/
def splitNul (s : String) : List String :=
  splitOnChar '\x00' s

/-- Python `s.splitlines()` for newline-separated subprocess output. -/
def pySplitlines (s : String) : List String :=
  let parts := splitOnChar '\n' s
  if parts.getLast? == some "" then parts.dropLast else parts

/-- Python `s.split()`: split on whitespace runs, dropping empties. -/
def splitWsAux : List Char → List Char → List String
  | [], acc => if acc.isEmpty then [] else [⟨acc.reverse⟩]
  | c :: cs, acc =>
      if c.isWhitespace then
        (if acc.isEmpty then splitWsAux cs [] else (⟨acc.reverse⟩ : String) :: splitWsAux cs [])
      else splitWsAux cs (c :: acc)

/-- Python `s.split()` with no argument. -/
def pySplitWs (s : String) : List String :=
  splitWsAux s.data []

/-- A reservation record as read from one `*.json` file.  The fields the
scripts access via `.get`; an absent key is `none`.  (`exclusive`
defaults to `True` at the use site via `.get("exclusive", True)`.) -/
structure Reservation where
  agent : Option String
  path_pattern : Option String
  exclusive : Option Bool
  expires_ts : Option String
deriving DecidableEq

/-- Conflict triple `(path, holder agent, matched pattern)`. -/
abbrev Conflict := String × Option String × String

/-- The expiry test shared by both evaluators:
`expires = r.get("expires_ts"); if expires: try: if fromisoformat(expires) < now: continue; except: pass`.
The record is skipped iff the field is present, non-empty, parses, and
is strictly earlier than `now`; a parse failure does not skip. -/
def expiredSkip (pt : String → Option Int) (now : Int) (r : Reservation) : Bool :=
  match r.expires_ts with
  | none => false
  | some e =>
      if e == "" then false
      else
        match pt e with
        | some t => decide (t < now)
        | none => false

/-- The same record with its expiry field removed. -/
def withNoExpiry (r : Reservation) : Reservation :=
  ⟨r.agent, r.path_pattern, r.exclusive, none⟩

/-- `load_file_reservations()`: records whose read or parse raised are
skipped; the rest are yielded in directory order. -/
def loadReservations (files : List (Option Reservation)) : List Reservation :=
  files.filterMap id

/-- The reservation directory: existence flag plus per-file parse
results in glob order. -/
structure ReservationDir where
  dirExists : Bool
  files : List (Option Reservation)

/-- Stdout of the two staged-change subprocess calls of the pre-commit
script; `none` models the call raising. -/
structure CommitGit where
  diffCachedNames : Option String
  diffCachedStatus : Option String

/-- The `while i < len(parts)` loop over the NUL-split, non-empty
name-status fields (guard.py lines 79-91): a status starting with `R`
followed by at least two more fields consumes old and new name; any
other status consumes one path. -/
def parseStatusParts : List String → List String
  | [] => []
  | status :: oldp :: newp :: rest =>
      if (match status.data with | 'R' :: _ => true | _ => false) then
        ((if oldp != "" then [oldp] else []) ++ (if newp != "" then [newp] else []))
          ++ parseStatusParts rest
      else
        (if oldp != "" then [oldp] else []) ++ parseStatusParts (newp :: rest)
  | [_, pth] => if pth != "" then [pth] else []
  | [_] => []

/-- Staged-path collection of the pre-commit script (guard.py lines
66-93).  Both subprocess calls sit in one `try`, so a failure of the
first call yields no paths, while a failure of the second call keeps
the paths already collected by the first. -/
def collectStagedPaths (g : CommitGit) : List String :=
  match g.diffCachedNames with
  | none => []
  | some data =>
      let ps := (splitNul data).filter (fun p => p != "")
      match g.diffCachedStatus with
      | none => ps
      | some sdata => ps ++ parseStatusParts ((splitNul sdata).filter (fun x => x != ""))

/-- Stdout oracles for the pre-push script's subprocess calls:
`revList localSha remote`, `diffNameOnly range`, `diffTree commit`;
`none` models the call raising. -/
structure PushGit where
  revList : String → String → Option String
  diffNameOnly : String → Option String
  diffTree : String → Option String

/-- Parse the ref-update tuples from stdin (guard.py lines 174-178). -/
def parseTuples (stdin : String) : List (String × String × String × String) :=
  (pySplitlines stdin).filterMap (fun line =>
    match pySplitWs (pyStrip line) with
    | a :: b :: c :: d :: _ => some (a, b, c, d)
    | _ => none)

/-- `not remote_sha or set(remote_sha) == {"0"}`. -/
def isAllZeroSha (s : String) : Bool :=
  s == "" || s.data.all (fun c => c == '0')

/-- The `commits` list built by the pre-push script (guard.py lines
180-200).  Primary: `git rev-list <local> --not --remotes=<remote>`.
On failure, the fallback appends the PATHS of a direct `git diff
--name-only` over the range into the same `commits` list (the source
comments them as markers "handled below", but nothing below
distinguishes them from commit ids). -/
def collectCommits (g : PushGit) (argv1 : Option String)
    (tuples : List (String × String × String × String)) : List String :=
  tuples.flatMap (fun t =>
    let localSha := t.2.1
    let remoteSha := t.2.2.2
    if localSha == "" then []
    else
      let remote := argv1.getD ("origin")
      match g.revList localSha remote with
      | some out =>
          (pySplitlines out).filterMap (fun sha => if sha != "" then some (pyStrip sha) else none)
      | none =>
          let rng := if isAllZeroSha remoteSha then localSha else remoteSha ++ ".." ++ localSha
          match g.diffNameOnly rng with
          | some out => pySplitlines out
          | none => [])

/-- The `changed` list (guard.py lines 202-211): every element of
`commits` is fed to `git diff-tree` as a commit id; a raising call
contributes nothing. -/
def collectChanged (g : PushGit) (commits : List String) : List String :=
  commits.flatMap (fun c =>
    match g.diffTree c with
    | some data => (splitNul data).filter (fun p => p != "")
    | none => [])

/-- Per-record conflict computation of the commit-time evaluator
(guard.py lines 107-123): skip self-owned, skip expired, skip an absent
or empty pattern, then bidirectional `fnmatch` against every staged
path. -/
def commitRecordConflicts (agentName : String) (pt : String → Option Int) (now : Int)
    (paths : List String) (r : Reservation) : List Conflict :=
  if r.agent == some agentName then []
  else if expiredSkip pt now r then []
  else
    match r.path_pattern with
    | none => []
    | some pat =>
        if pat == "" then []
        else
          paths.filterMap (fun path =>
            if fnmatch path pat || fnmatch pat path then some (path, r.agent, pat)
            else none)

/-- Python `p.replace("\\", "/").lstrip("/")`. -/
def pyNorm (s : String) : String :=
  ⟨(s.data.map (fun c => if c == '\\' then '/' else c)).dropWhile (fun c => c == '/')⟩

/-- Per-record conflict computation of the push-time evaluator
(guard.py lines 223-245): additionally skips `exclusive:false` records,
strips the pattern, normalises separators, and uses `fnmatchcase` both
ways plus literal equality. -/
def pushRecordConflicts (agentName : String) (pt : String → Option Int) (now : Int)
    (changed : List String) (r : Reservation) : List Conflict :=
  if r.agent == some agentName then []
  else if (r.exclusive.getD true) == false then []
  else if expiredSkip pt now r then []
  else
    let pat := pyStrip (r.path_pattern.getD "")
    if pat == "" then []
    else
      changed.filterMap (fun path =>
        let a := pyNorm path
        let b := pyNorm pat
        if fnmatchcase a b || fnmatchcase b a || a == b then some (path, r.agent, pat)
        else none)

/-- Observable outcome of one script run: the exit code, whether
`load_file_reservations` was invoked, and the conflict list. -/
structure RunResult where
  exitCode : Nat
  snapshotLoaded : Bool
  conflicts : List Conflict
deriving DecidableEq

/-- The final `if conflicts: ... ADVISORY ...` block shared by both
scripts (guard.py lines 125-136 and 247-258). -/
def verdict (advisory : Bool) (cs : List Conflict) : RunResult :=
  if cs.isEmpty then ⟨0, true, cs⟩
  else if advisory then ⟨0, true, cs⟩
  else ⟨1, true, cs⟩

/-- The full pre-commit script (guard.py lines 30-137), as a function
of the environment, the two subprocess outputs, the reservation
directory, the timestamp-parsing oracle and the current instant. -/
def precommitRun (env : Env) (g : CommitGit) (fs : ReservationDir)
    (pt : String → Option Int) (now : Int) : RunResult :=
  if !(gateEnabled env) then ⟨0, false, []⟩
  else if bypassEnabled env then ⟨0, false, []⟩
  else if agentMissing env then ⟨1, false, []⟩
  else if !(fs.dirExists) then ⟨0, false, []⟩
  else
    let paths := collectStagedPaths g
    if paths.isEmpty then ⟨0, false, []⟩
    else
      verdict (advisoryOf env)
        ((loadReservations fs.files).flatMap
          (commitRecordConflicts (env.agent_name.getD "") pt now paths))

/-- The full pre-push script (guard.py lines 147-259).  Note there is
no empty-`changed` early exit: once the guards pass, the snapshot
generator is always consumed by the evaluator loop. -/
def prepushRun (env : Env) (g : PushGit) (argv1 : Option String) (stdin : String)
    (fs : ReservationDir) (pt : String → Option Int) (now : Int) : RunResult :=
  if !(gateEnabled env) then ⟨0, false, []⟩
  else if bypassEnabled env then ⟨0, false, []⟩
  else if agentMissing env then ⟨1, false, []⟩
  else if !(fs.dirExists) then ⟨0, false, []⟩
  else
    let commits := collectCommits g argv1 (parseTuples stdin)
    let changed := collectChanged g commits
    verdict (advisoryOf env)
      ((loadReservations fs.files).flatMap
        (pushRecordConflicts (env.agent_name.getD "") pt now changed))

/-- Python exception kinds the embedding distinguishes. -/
inductive PyErr where
  | typeError
deriving DecidableEq

/-- Python unary `+` applied to a `str` raises `TypeError`. -/
def pyUnaryPlusStr (_ : String) : Except PyErr String :=
  Except.error PyErr.typeError

/-- The archive handle: the per-project storage root.  `Path.resolve()`
on an already absolute root is modelled as the identity. -/
structure ProjectArchive where
  root : String

/-- The `lines` list of `render_precommit_script` (guard.py lines 30-137). -/
def precommitLines (archive : ProjectArchive) : List String :=
  let file_reservations_dir := archive.root ++ ("/file_reservations")
  let storage_root := archive.root
  [ "#!/usr/bin/env python3"
  , "import json"
  , "import os"
  , "import sys"
  , "import subprocess"
  , "from pathlib import Path"
  , "from fnmatch import fnmatch"
  , "from datetime import datetime, timezone"
  , ""
  , "FILE_RESERVATIONS_DIR = Path(\"" ++ file_reservations_dir ++ "\")"
  , "STORAGE_ROOT = Path(\"" ++ storage_root ++ "\")"
  , ""
  , "# Global gate: if not explicitly enabled, this hook is a no-op."
  , "if (os.environ.get(\"WORKTREES_ENABLED\",\"0\") or \"0\").strip().lower() not in \x7b\"1\",\"true\",\"t\",\"yes\",\"y\"\x7d:"
  , "    sys.exit(0)"
  , ""
  , "# Advisory/blocking mode: default to \x27block\x27 unless explicitly set to \x27warn\x27."
  , "MODE = (os.environ.get(\"AGENT_MAIL_GUARD_MODE\",\"block\") or \"block\").strip().lower()"
  , "ADVISORY = MODE in \x7b\"warn\",\"advisory\",\"adv\"\x7d"
  , ""
  , "# Emergency bypass"
  , "if (os.environ.get(\"AGENT_MAIL_BYPASS\",\"0\") or \"0\").strip().lower() in \x7b\"1\",\"true\",\"t\",\"yes\",\"y\"\x7d:"
  , "    sys.stderr.write(\"[pre-commit] bypass enabled via AGENT_MAIL_BYPASS=1\\n\")"
  , "    sys.exit(0)"
  , "AGENT_NAME = os.environ.get(\"AGENT_NAME\")"
  , "if not AGENT_NAME:"
  , "    sys.stderr.write(\"[pre-commit] AGENT_NAME environment variable is required.\\n\")"
  , "    sys.exit(1)"
  , ""
  , "if not FILE_RESERVATIONS_DIR.exists():"
  , "    sys.exit(0)"
  , ""
  , "now = datetime.now(timezone.utc)"
  , ""
  , "# Collect staged paths (name-only) and expand renames/moves (old+new)"
  , "paths = []"
  , "try:"
  , "    co = subprocess.run([\"git\",\"diff\",\"--cached\",\"--name-only\",\"-z\",\"--diff-filter=ACMRDTU\"],"
  , "                        check=True,capture_output=True)"
  , "    data = co.stdout.decode(\"utf-8\",\"ignore\")"
  , "    for p in data.split(\"\\x00\"):"
  , "        if p:"
  , "            paths.append(p)"
  , "    # Rename detection: capture both old and new names"
  , "    cs = subprocess.run([\"git\",\"diff\",\"--cached\",\"--name-status\",\"-M\",\"-z\"],"
  , "                        check=True,capture_output=True)"
  , "    sdata = cs.stdout.decode(\"utf-8\",\"ignore\")"
  , "    parts = [x for x in sdata.split(\"\\x00\") if x]"
  , "    i = 0"
  , "    while i < len(parts):"
  , "        status = parts[i]"
  , "        i += 1"
  , "        if status.startswith(\"R\") and i + 1 < len(parts):"
  , "            oldp = parts[i]; newp = parts[i+1]; i += 2"
  , "            if oldp: paths.append(oldp)"
  , "            if newp: paths.append(newp)"
  , "        else:"
  , "            # Status followed by one path"
  , "            if i < len(parts):"
  , "                pth = parts[i]; i += 1"
  , "                if pth: paths.append(pth)"
  , "except Exception:"
  , "    pass"
  , ""
  , "if not paths:"
  , "    sys.exit(0)"
  , ""
  , "def load_file_reservations():"
  , "    for candidate in FILE_RESERVATIONS_DIR.glob(\"*.json\"):"
  , "        try:"
  , "            data = json.loads(candidate.read_text())"
  , "        except Exception:"
  , "            continue"
  , "        yield data"
  , ""
  , "conflicts = []"
  , "for file_reservation in load_file_reservations():"
  , "    if file_reservation.get(\"agent\") == AGENT_NAME:"
  , "        continue"
  , "    expires = file_reservation.get(\"expires_ts\")"
  , "    if expires:"
  , "        try:"
  , "            expires_dt = datetime.fromisoformat(expires)"
  , "            if expires_dt < now:"
  , "                continue"
  , "        except Exception:"
  , "            pass"
  , "    pattern = file_reservation.get(\"path_pattern\")"
  , "    if not pattern:"
  , "        continue"
  , "    for path_value in paths:"
  , "        if fnmatch(path_value, pattern) or fnmatch(pattern, path_value):"
  , "            conflicts.append((path_value, file_reservation.get(\"agent\"), pattern))"
  , ""
  , "if conflicts:"
  , "    sys.stderr.write(\"[pre-commit] Exclusive file_reservation conflicts detected:\\n\")"
  , "    for path_value, agent_name, pattern in conflicts:"
  , "        sys.stderr.write(f\"  - \x7bpath_value\x7d matches file_reservation \x27\x7bpattern\x7d\x27 held by \x7bagent_name\x7d\\n\")"
  , "    if ADVISORY:"
  , "        sys.stderr.write(\"[pre-commit] Advisory mode: not blocking commit (set AGENT_MAIL_GUARD_MODE=block to enforce).\\n\")"
  , "        sys.exit(0)"
  , "    else:"
  , "        sys.stderr.write(\"Resolve conflicts or release file_reservations before committing.\\n\")"
  , "        sys.exit(1)"
  , ""
  , "sys.exit(0)"
  ]

/-- `render_precommit_script` (guard.py lines 22-138). -/
def render_precommit_script (archive : ProjectArchive) : String :=
  String.intercalate ("\n") (precommitLines archive) ++ "\n"

/-- Element-wise evaluation of the `lines` list literal of
`render_prepush_script` (guard.py lines 147-259).  Source line 209
starts with a stray `+`, so that element is Python unary plus applied
to a string, which raises `TypeError` when the literal is evaluated. -/
def prepushLineActs (archive : ProjectArchive) : List (Except PyErr String) :=
  let file_reservations_dir := archive.root ++ ("/file_reservations")
  [ Except.ok ("#!/usr/bin/env python3")
  , Except.ok ("import json")
  , Except.ok ("import os")
  , Except.ok ("import sys")
  , Except.ok ("import subprocess")
  , Except.ok ("from pathlib import Path")
  , Except.ok ("from datetime import datetime, timezone")
  , Except.ok ("")
  , Except.ok ("FILE_RESERVATIONS_DIR = Path(\"" ++ file_reservations_dir ++ "\")")
  , Except.ok ("")
  , Except.ok ("# Gate")
  , Except.ok ("if (os.environ.get(\"WORKTREES_ENABLED\",\"0\") or \"0\").strip().lower() not in \x7b\"1\",\"true\",\"t\",\"yes\",\"y\"\x7d:")
  , Except.ok ("    sys.exit(0)")
  , Except.ok ("MODE = (os.environ.get(\"AGENT_MAIL_GUARD_MODE\",\"block\") or \"block\").strip().lower()")
  , Except.ok ("ADVISORY = MODE in \x7b\"warn\",\"advisory\",\"adv\"\x7d")
  , Except.ok ("if (os.environ.get(\"AGENT_MAIL_BYPASS\",\"0\") or \"0\").strip().lower() in \x7b\"1\",\"true\",\"t\",\"yes\",\"y\"\x7d:")
  , Except.ok ("    sys.stderr.write(\"[pre-push] bypass enabled via AGENT_MAIL_BYPASS=1\\n\")")
  , Except.ok ("    sys.exit(0)")
  , Except.ok ("AGENT_NAME = os.environ.get(\"AGENT_NAME\")")
  , Except.ok ("if not AGENT_NAME:")
  , Except.ok ("    sys.stderr.write(\"[pre-push] AGENT_NAME environment variable is required.\\n\")")
  , Except.ok ("    sys.exit(1)")
  , Except.ok ("if not FILE_RESERVATIONS_DIR.exists():")
  , Except.ok ("    sys.exit(0)")
  , Except.ok ("")
  , Except.ok ("# Read tuples from STDIN: <local ref> <local sha> <remote ref> <remote sha>")
  , Except.ok ("tuples = []")
  , Except.ok ("for line in sys.stdin.read().splitlines():")
  , Except.ok ("    parts = line.strip().split()")
  , Except.ok ("    if len(parts) >= 4:")
  , Except.ok ("        tuples.append((parts[0], parts[1], parts[2], parts[3]))")
  , Except.ok ("")
  , Except.ok ("commits = []")
  , Except.ok ("for local_ref, local_sha, remote_ref, remote_sha in tuples:")
  , Except.ok ("    if not local_sha:")
  , Except.ok ("        continue")
  , Except.ok ("    # Enumerate commits to be pushed using remote name from args (argv[1]) when available")
  , Except.ok ("    remote = (sys.argv[1] if len(sys.argv) > 1 else \"origin\")")
  , Except.ok ("    try:")
  , Except.ok ("        cp = subprocess.run([\"git\",\"rev-list\",\"--topo-order\",local_sha,\"--not\",f\"--remotes=\x7bremote\x7d\"],")
  , Except.ok ("                            check=True,capture_output=True,text=True)")
  , Except.ok ("        for sha in cp.stdout.splitlines():")
  , Except.ok ("            if sha:")
  , Except.ok ("                commits.append(sha.strip())")
  , Except.ok ("    except Exception:")
  , Except.ok ("        # Fallback: remote range when available")
  , Except.ok ("        rng = local_sha if (not remote_sha or set(remote_sha) == \x7b\"0\"\x7d) else f\"\x7bremote_sha\x7d..\x7blocal_sha\x7d\"")
  , Except.ok ("        try:")
  , Except.ok ("            cp = subprocess.run([\"git\",\"diff\",\"--name-only\",rng],check=True,capture_output=True,text=True)")
  , Except.ok ("            for p in cp.stdout.splitlines():")
  , Except.ok ("                commits.append(p)  # marker; will be handled below")
  , Except.ok ("        except Exception:")
  , Except.ok ("            pass")
  , Except.ok ("")
  , Except.ok ("changed = []")
  , Except.ok ("for c in commits:")
  , Except.ok ("    try:")
  , Except.ok ("        cp = subprocess.run([\"git\",\"diff-tree\",\"-r\",\"--no-commit-id\",\"--name-only\",\"--no-ext-diff\",\"--diff-filter=ACMRDTU\",\"-z\",c],")
  , Except.ok ("                            check=True,capture_output=True)")
  , Except.ok ("        data = cp.stdout.decode(\"utf-8\",\"ignore\")")
  , Except.ok ("        paths = [p for p in data.split(\"\\x00\") if p]")
  , pyUnaryPlusStr ("        changed.extend(paths)")
  , Except.ok ("    except Exception:")
  , Except.ok ("        continue")
  , Except.ok ("")
  , Except.ok ("def load_file_reservations():")
  , Except.ok ("    for candidate in FILE_RESERVATIONS_DIR.glob(\"*.json\"):")
  , Except.ok ("        try:")
  , Except.ok ("            data = json.loads(candidate.read_text())")
  , Except.ok ("        except Exception:")
  , Except.ok ("            continue")
  , Except.ok ("        yield data")
  , Except.ok ("")
  , Except.ok ("now = datetime.now(timezone.utc)")
  , Except.ok ("conflicts = []")
  , Except.ok ("for file_reservation in load_file_reservations():")
  , Except.ok ("    if file_reservation.get(\"agent\") == AGENT_NAME:")
  , Except.ok ("        continue")
  , Except.ok ("    if not file_reservation.get(\"exclusive\", True):")
  , Except.ok ("        continue")
  , Except.ok ("    expires = file_reservation.get(\"expires_ts\")")
  , Except.ok ("    if expires:")
  , Except.ok ("        try:")
  , Except.ok ("            expires_dt = datetime.fromisoformat(expires)")
  , Except.ok ("            if expires_dt < now:")
  , Except.ok ("                continue")
  , Except.ok ("        except Exception:")
  , Except.ok ("            pass")
  , Except.ok ("    pattern = (file_reservation.get(\"path_pattern\") or \"\").strip()")
  , Except.ok ("    if not pattern:")
  , Except.ok ("        continue")
  , Except.ok ("    for path_value in changed:")
  , Except.ok ("        # simple fnmatch-style compare; hook remains dependency-free")
  , Except.ok ("        import fnmatch as _fn")
  , Except.ok ("        a = path_value.replace(\"\\\\\",\"/\").lstrip(\"/\")")
  , Except.ok ("        b = pattern.replace(\"\\\\\",\"/\").lstrip(\"/\")")
  , Except.ok ("        if _fn.fnmatchcase(a,b) or _fn.fnmatchcase(b,a) or (a==b):")
  , Except.ok ("            conflicts.append((path_value, file_reservation.get(\"agent\"), pattern))")
  , Except.ok ("")
  , Except.ok ("if conflicts:")
  , Except.ok ("    sys.stderr.write(\"[pre-push] Exclusive file_reservation conflicts detected:\\n\")")
  , Except.ok ("    for path_value, agent_name, pattern in conflicts:")
  , Except.ok ("        sys.stderr.write(f\"  - \x7bpath_value\x7d matches file_reservation \x27\x7bpattern\x7d\x27 held by \x7bagent_name\x7d\\n\")")
  , Except.ok ("    if ADVISORY:")
  , Except.ok ("        sys.stderr.write(\"[pre-push] Advisory mode: not blocking push (set AGENT_MAIL_GUARD_MODE=block to enforce).\\n\")")
  , Except.ok ("        sys.exit(0)")
  , Except.ok ("    else:")
  , Except.ok ("        sys.stderr.write(\"Resolve conflicts or release file_reservations before pushing.\\n\")")
  , Except.ok ("        sys.exit(1)")
  , Except.ok ("")
  , Except.ok ("sys.exit(0)")
  ]

/-- `render_prepush_script` (guard.py lines 141-260): evaluate the line
list left to right, then join; the stray unary plus makes this raise. -/
def render_prepush_script (archive : ProjectArchive) : Except PyErr String :=
  ((prepushLineActs archive).mapM id).map (fun ls => String.intercalate ("\n") ls ++ "\n")

/-! Concrete fixtures used by witnesses and counterexamples. -/

/-- A sample archive rooted at an absolute path. -/
def arch1 : ProjectArchive := ⟨"/data/archive"⟩

/-- Gate on, mode unset (default block), bypass off, agent `A`. -/
def envBlock : Env := ⟨some ("1"), none, some ("0"), some ("A")⟩

/-- Same as `envBlock` but with mode `warn`. -/
def envWarn : Env := ⟨some ("1"), some ("warn"), some ("0"), some ("A")⟩

/-- Gate off, nothing else set. -/
def envOff : Env := ⟨some ("0"), none, none, none⟩

/-- Gate on, bypass on, no agent identity. -/
def envBypass : Env := ⟨some ("1"), none, some ("1"), none⟩

/-- Gate on, bypass off, no agent identity. -/
def envNoAgent : Env := ⟨some ("1"), none, some ("0"), none⟩

/-- Timestamp oracle on which every parse fails. -/
def ptNone : String → Option Int := fun _ => none

/-- Timestamp oracle parsing exactly one stamp to the instant 100. -/
def ptStamp : String → Option Int :=
  fun s => if s == "2025-06-01T00:00:00+00:00" then some (100) else none

/-- Exclusive reservation by agent `B` on `src/a.txt`, no expiry. -/
def rB : Reservation := ⟨some ("B"), some ("src/a.txt"), some true, none⟩

/-- Non-exclusive (`exclusive:false`) reservation by `B` on `src/a.txt`. -/
def rBNonExcl : Reservation := ⟨some ("B"), some ("src/a.txt"), some false, none⟩

/-- Exclusive reservation by `B` whose expiry stamp parses to 100. -/
def rBStamp : Reservation := ⟨some ("B"), some ("src/a.txt"), some true, some ("2025-06-01T00:00:00+00:00")⟩

/-- Exclusive reservation by `B` with an unparsable expiry stamp. -/
def rBBadTs : Reservation := ⟨some ("B"), some ("src/a.txt"), some true, some ("not-a-timestamp")⟩

/-- Reservation directory holding just `rB`. -/
def fs1 : ReservationDir := ⟨true, [some rB]⟩

/-- Reservation directory holding just `rBNonExcl`. -/
def fsNE : ReservationDir := ⟨true, [some rBNonExcl]⟩

/-- Both staged-path calls succeed: one staged file, no renames. -/
def gCommit1 : CommitGit := ⟨some ("src/a.txt\x00"), some ("")⟩

/-- The first staged-path call raises. -/
def gFail1 : CommitGit := ⟨none, some ("")⟩

/-- The first call succeeds with one path, the rename call raises. -/
def gFail2 : CommitGit := ⟨some ("src/a.txt\x00"), none⟩

/-- Push oracles: rev-list succeeds for `Lsha` with one commit `c1`
whose tree diff touches `src/a.txt`. -/
def gPush1 : PushGit :=
  ⟨fun l _ => if l == "Lsha" then some ("c1\n") else none,
   fun _ => none,
   fun c => if c == "c1" then some ("src/a.txt\x00") else none⟩

/-- One ref-update tuple on stdin. -/
def stdin1 : String := "refs/heads/main Lsha refs/heads/main Rsha\n"

/-- Push oracles for the fallback path: rev-list always raises, the
range diff for `Rsha..Lsha` yields `src/a.txt`, and diff-tree raises on
every argument (in particular on a path used as a commit id). -/
def gC2 : PushGit :=
  ⟨fun _ _ => none,
   fun r => if r == "Rsha..Lsha" then some ("src/a.txt\n") else none,
   fun _ => none⟩

/-! ## Helper lemmas -/

/-- The conflict list reported by the final verdict block is exactly the
evaluator's conflict list. -/
theorem verdict_conflicts (adv : Bool) (cs : List Conflict) :
    (verdict adv cs).conflicts = cs := by
  rcases cs with _ | ⟨c, t⟩ <;> cases adv <;> simp [verdict]

/-- With a non-empty conflict list the verdict block exits 0 in
advisory mode and 1 otherwise. -/
theorem verdict_exit_of_ne (adv : Bool) (cs : List Conflict) (h : cs ≠ []) :
    (verdict adv cs).exitCode = if adv then 0 else 1 := by
  rcases cs with _ | ⟨c, t⟩
  · exact absurd rfl h
  · cases adv <;> simp [verdict]

/-- If the pre-commit run reports any conflict, its exit code is
decided purely by the advisory flag. -/
theorem precommitRun_exit_of_conflicts (env : Env) (g : CommitGit) (fs : ReservationDir)
    (pt : String → Option Int) (now : Int)
    (hc : (precommitRun env g fs pt now).conflicts ≠ []) :
    (precommitRun env g fs pt now).exitCode = if advisoryOf env then 0 else 1 := by
  by_cases h1 : gateEnabled env <;>
    by_cases h2 : bypassEnabled env <;>
      by_cases h3 : agentMissing env <;>
        by_cases h4 : fs.dirExists <;>
          by_cases h5 : (collectStagedPaths g).isEmpty <;>
            simp [precommitRun, h1, h2, h3, h4, h5] at hc ⊢ <;>
              first
                | (exact absurd rfl hc)
                | (rw [verdict_conflicts] at hc; exact verdict_exit_of_ne _ _ hc)

/-- If the pre-push run reports any conflict, its exit code is decided
purely by the advisory flag. -/
theorem prepushRun_exit_of_conflicts (env : Env) (pg : PushGit) (argv1 : Option String)
    (stdin : String) (fs : ReservationDir) (pt : String → Option Int) (now : Int)
    (hc : (prepushRun env pg argv1 stdin fs pt now).conflicts ≠ []) :
    (prepushRun env pg argv1 stdin fs pt now).exitCode = if advisoryOf env then 0 else 1 := by
  by_cases h1 : gateEnabled env <;>
    by_cases h2 : bypassEnabled env <;>
      by_cases h3 : agentMissing env <;>
        by_cases h4 : fs.dirExists <;>
          simp [prepushRun, h1, h2, h3, h4] at hc ⊢ <;>
            first
              | (exact absurd rfl hc)
              | (rw [verdict_conflicts] at hc; exact verdict_exit_of_ne _ _ hc)

/-- Removing the expiry field leaves the agent field unchanged. -/
theorem withNoExpiry_agent (r : Reservation) : (withNoExpiry r).agent = r.agent := rfl

/-- Removing the expiry field leaves the pattern field unchanged. -/
theorem withNoExpiry_path_pattern (r : Reservation) :
    (withNoExpiry r).path_pattern = r.path_pattern := rfl

/-- Removing the expiry field leaves the exclusivity field unchanged. -/
theorem withNoExpiry_exclusive (r : Reservation) :
    (withNoExpiry r).exclusive = r.exclusive := rfl

/-- A record without expiry is never skipped as expired. -/
theorem expiredSkip_withNoExpiry (pt : String → Option Int) (now : Int) (r : Reservation) :
    expiredSkip pt now (withNoExpiry r) = false := rfl

/-! ## Claims -/

/-- C1: the Boundary Script Generator should produce both scripts:
`render_precommit_script` does return the commit-time script text with
the absolute reservation-directory path and archive root baked in, but
`render_prepush_script` raises a `TypeError` instead of returning the
push-time text, because its `lines` list literal carries a stray
leading `+` (guard.py line 209) that applies Python unary plus to a
string.  The theorem evaluates both generators at a concrete archive. -/
theorem c1_generator_scripts :
    (precommitLines arch1).contains ("FILE_RESERVATIONS_DIR = Path(\"/data/archive/file_reservations\")") = true
    ∧ (precommitLines arch1).contains ("STORAGE_ROOT = Path(\"/data/archive\")") = true
    ∧ render_precommit_script arch1 = String.intercalate ("\n") (precommitLines arch1) ++ "\n"
    ∧ render_prepush_script arch1 = Except.error PyErr.typeError := by
  exact ⟨by decide, by decide, rfl, rfl⟩

/-- C2: in the push-time script the fallback diff's paths are appended
to the `commits` list, and every element of that list is then passed to
`git diff-tree` as a commit id; for a path that call fails, so the path
never reaches the changed-path set.  Concretely: rev-list fails, the
fallback range diff yields `src/a.txt`, yet the changed set is empty
and the run reports no conflict against an exclusive foreign
reservation on exactly that path — contradicting the claim that every
fallback-diff path is tested against reservations. -/
theorem c2_fallback_paths_dropped :
    collectCommits gC2 (some ("origin")) (parseTuples stdin1) = ["src/a.txt"]
    ∧ collectChanged gC2 ["src/a.txt"] = []
    ∧ prepushRun envBlock gC2 (some ("origin")) stdin1 fs1 ptNone 0 = ⟨0, true, []⟩ := by
  exact ⟨by decide, by decide, by decide⟩

/-- C3: an `exclusive:false` record is excluded from the push-time
evaluation (universally) but included in the commit-time evaluation:
the same non-exclusive record, acting agent, and candidate path yield a
conflict and exit 1 at commit time and no conflict and exit 0 at push
time. -/
theorem c3_exclusivity_phase_asymmetry (agentName : String) (changed : List String)
    (pt : String → Option Int) (now : Int) (r : Reservation)
    (h : r.exclusive = some false) :
    pushRecordConflicts agentName pt now changed r = []
    ∧ commitRecordConflicts ("A") ptNone 0 ["src/a.txt"] rBNonExcl
        = [("src/a.txt", some ("B"), "src/a.txt")]
    ∧ pushRecordConflicts ("A") ptNone 0 ["src/a.txt"] rBNonExcl = []
    ∧ (precommitRun envBlock gCommit1 fsNE ptNone 0).exitCode = 1
    ∧ (prepushRun envBlock gPush1 (some ("origin")) stdin1 fsNE ptNone 0).exitCode = 0 := by
  refine ⟨?_, by decide, by decide, by decide, by decide⟩
  simp [pushRecordConflicts, h]

/-- Witness for C3 at a concrete non-exclusive record. -/
theorem c3_exclusivity_phase_asymmetry_witness :
    rBNonExcl.exclusive = some false
    ∧ pushRecordConflicts ("Z") ptNone 0 ["src/a.txt"] rBNonExcl = [] := by
  exact ⟨rfl, (c3_exclusivity_phase_asymmetry ("Z") ["src/a.txt"] ptNone 0 rBNonExcl rfl).1⟩

/-- C4 counterexample: a record whose `expires_ts` parses to exactly
`now` is NOT skipped — both evaluators still emit a conflict for it,
because the scripts skip only on `expires_dt < now` (strict). -/
theorem c4_boundary_expiry_cex :
    ptStamp ("2025-06-01T00:00:00+00:00") = some (100)
    ∧ rBStamp.expires_ts = some ("2025-06-01T00:00:00+00:00")
    ∧ commitRecordConflicts ("A") ptStamp 100 ["src/a.txt"] rBStamp
        = [("src/a.txt", some ("B"), "src/a.txt")]
    ∧ pushRecordConflicts ("A") ptStamp 100 ["src/a.txt"] rBStamp
        = [("src/a.txt", some ("B"), "src/a.txt")] := by
  exact ⟨by decide, rfl, by decide, by decide⟩

/-- C4 amended: a record whose `expires_ts` parses to a timestamp
exactly equal to the current time is treated as NOT expired by both
evaluators — it stays in consideration exactly as if it had no expiry;
only strictly earlier timestamps are skipped. -/
theorem c4_boundary_expiry_amended (agentName : String) (paths changed : List String)
    (pt : String → Option Int) (now : Int) (r : Reservation) (e : String)
    (he : r.expires_ts = some e) (hp : pt e = some now) :
    commitRecordConflicts agentName pt now paths r
      = commitRecordConflicts agentName pt now paths (withNoExpiry r)
    ∧ pushRecordConflicts agentName pt now changed r
      = pushRecordConflicts agentName pt now changed (withNoExpiry r) := by
  have hskip : expiredSkip pt now r = false := by
    simp [expiredSkip, he, hp]
  constructor <;>
    simp [commitRecordConflicts, pushRecordConflicts, hskip, expiredSkip_withNoExpiry,
      withNoExpiry_agent, withNoExpiry_path_pattern, withNoExpiry_exclusive]

/-- Witness for the amended C4 at the exact-boundary record. -/
theorem c4_boundary_expiry_amended_witness :
    rBStamp.expires_ts = some ("2025-06-01T00:00:00+00:00")
    ∧ ptStamp ("2025-06-01T00:00:00+00:00") = some (100)
    ∧ commitRecordConflicts ("A") ptStamp 100 ["src/a.txt"] rBStamp
        = commitRecordConflicts ("A") ptStamp 100 ["src/a.txt"] (withNoExpiry rBStamp) := by
  exact ⟨rfl, by decide,
    (c4_boundary_expiry_amended ("A") ["src/a.txt"] ["src/a.txt"] ptStamp 100 rBStamp
      ("2025-06-01T00:00:00+00:00") rfl (by decide)).1⟩

/-- C5: a record whose `expires_ts` is present but unparsable is
treated as not expired by both evaluators (it behaves exactly like the
same record with no expiry, and concretely can still produce a
conflict), while a whole-record parse failure drops the record from the
loaded snapshot. -/
theorem c5_unparsable_expiry_fail_closed (agentName : String) (paths changed : List String)
    (pt : String → Option Int) (now : Int) (r : Reservation) (e : String)
    (files : List (Option Reservation))
    (he : r.expires_ts = some e) (hp : pt e = none) :
    commitRecordConflicts agentName pt now paths r
      = commitRecordConflicts agentName pt now paths (withNoExpiry r)
    ∧ pushRecordConflicts agentName pt now changed r
      = pushRecordConflicts agentName pt now changed (withNoExpiry r)
    ∧ commitRecordConflicts ("A") ptStamp 100 ["src/a.txt"] rBBadTs
        = [("src/a.txt", some ("B"), "src/a.txt")]
    ∧ loadReservations (none :: files) = loadReservations files := by
  have hskip : expiredSkip pt now r = false := by
    simp [expiredSkip, he, hp]
  refine ⟨?_, ?_, by decide, ?_⟩
  · simp [commitRecordConflicts, hskip, expiredSkip_withNoExpiry,
      withNoExpiry_agent, withNoExpiry_path_pattern, withNoExpiry_exclusive]
  · simp [pushRecordConflicts, hskip, expiredSkip_withNoExpiry,
      withNoExpiry_agent, withNoExpiry_path_pattern, withNoExpiry_exclusive]
  · simp [loadReservations]

/-- Witness for C5 at a record with an unparsable expiry stamp. -/
theorem c5_unparsable_expiry_fail_closed_witness :
    rBBadTs.expires_ts = some ("not-a-timestamp")
    ∧ ptStamp ("not-a-timestamp") = none
    ∧ commitRecordConflicts ("A") ptStamp 100 ["src/a.txt"] rBBadTs
        = commitRecordConflicts ("A") ptStamp 100 ["src/a.txt"] (withNoExpiry rBBadTs) := by
  exact ⟨rfl, by decide,
    (c5_unparsable_expiry_fail_closed ("A") ["src/a.txt"] ["src/a.txt"] ptStamp 100 rBBadTs
      ("not-a-timestamp") [] rfl (by decide)).1⟩

/-- C6: with the gate on, bypass off, identity set and at least one
conflict found, both scripts exit 1 when the mode variable is unset or
`block`, and exit 0 when it is `warn`, `advisory`, or `adv`. -/
theorem c6_mode_matrix (env : Env) (g : CommitGit) (pg : PushGit) (argv1 : Option String)
    (stdin : String) (fs : ReservationDir) (pt : String → Option Int) (now : Int)
    (hgate : gateEnabled env = true) (hbyp : bypassEnabled env = false)
    (hagent : agentMissing env = false)
    (hc : (precommitRun env g fs pt now).conflicts ≠ [])
    (hc2 : (prepushRun env pg argv1 stdin fs pt now).conflicts ≠ []) :
    ((env.guard_mode = none ∨ env.guard_mode = some ("block")) →
        (precommitRun env g fs pt now).exitCode = 1
        ∧ (prepushRun env pg argv1 stdin fs pt now).exitCode = 1)
    ∧ ((env.guard_mode = some ("warn") ∨ env.guard_mode = some ("advisory")
          ∨ env.guard_mode = some ("adv")) →
        (precommitRun env g fs pt now).exitCode = 0
        ∧ (prepushRun env pg argv1 stdin fs pt now).exitCode = 0) := by
  have e1 := precommitRun_exit_of_conflicts env g fs pt now hc
  have e2 := prepushRun_exit_of_conflicts env pg argv1 stdin fs pt now hc2
  constructor
  · intro hm
    have hadv : advisoryOf env = false := by
      unfold advisoryOf modeOf
      rcases hm with hm | hm <;> rw [hm] <;> decide
    rw [e1, e2, hadv]
    exact ⟨rfl, rfl⟩
  · intro hm
    have hadv : advisoryOf env = true := by
      unfold advisoryOf modeOf
      rcases hm with hm | hm | hm <;> rw [hm] <;> decide
    rw [e1, e2, hadv]
    exact ⟨rfl, rfl⟩

/-- Witness for C6: a concrete run with a conflict under default
(block) mode exits 1 in both scripts. -/
theorem c6_mode_matrix_witness :
    envBlock.guard_mode = none
    ∧ (precommitRun envBlock gCommit1 fs1 ptNone 0).exitCode = 1
    ∧ (prepushRun envBlock gPush1 (some ("origin")) stdin1 fs1 ptNone 0).exitCode = 1 := by
  have h := c6_mode_matrix envBlock gCommit1 gPush1 (some ("origin")) stdin1 fs1 ptNone 0
    (by decide) (by decide) (by decide) (by decide) (by decide)
  exact ⟨rfl, (h.1 (Or.inl rfl)).1, (h.1 (Or.inl rfl)).2⟩

/-- C7: a record owned by the acting agent never contributes a conflict
in either evaluator, whatever its pattern, expiry or exclusivity. -/
theorem c7_self_ownership (agentName : String) (paths changed : List String)
    (pt : String → Option Int) (now : Int) (r : Reservation)
    (h : r.agent = some agentName) :
    commitRecordConflicts agentName pt now paths r = []
    ∧ pushRecordConflicts agentName pt now changed r = [] := by
  constructor <;> simp [commitRecordConflicts, pushRecordConflicts, h]

/-- Witness for C7: agent `B`'s own reservation on an overlapping
pattern produces no conflict for `B`. -/
theorem c7_self_ownership_witness :
    rB.agent = some ("B")
    ∧ commitRecordConflicts ("B") ptNone 0 ["src/a.txt"] rB = []
    ∧ pushRecordConflicts ("B") ptNone 0 ["src/a.txt"] rB = [] := by
  have h := c7_self_ownership ("B") ["src/a.txt"] ["src/a.txt"] ptNone 0 rB rfl
  exact ⟨rfl, h.1, h.2⟩

/-- C8: with the gate off or bypass truthy, both scripts return exit 0
with the loader never invoked, and the whole run result is independent
of the reservation-directory contents. -/
theorem c8_bypass_short_circuit (env : Env) (g : CommitGit) (pg : PushGit)
    (argv1 : Option String) (stdin : String) (fs fs2 : ReservationDir)
    (pt : String → Option Int) (now : Int)
    (h : gateEnabled env = false ∨ bypassEnabled env = true) :
    precommitRun env g fs pt now = ⟨0, false, []⟩
    ∧ prepushRun env pg argv1 stdin fs pt now = ⟨0, false, []⟩
    ∧ precommitRun env g fs pt now = precommitRun env g fs2 pt now
    ∧ prepushRun env pg argv1 stdin fs pt now = prepushRun env pg argv1 stdin fs2 pt now := by
  have hp : ∀ fs3 : ReservationDir, precommitRun env g fs3 pt now = ⟨0, false, []⟩ := by
    intro fs3
    rcases h with h | h <;> simp [precommitRun, h]
  have hq : ∀ fs3 : ReservationDir, prepushRun env pg argv1 stdin fs3 pt now = ⟨0, false, []⟩ := by
    intro fs3
    rcases h with h | h <;> simp [prepushRun, h]
  exact ⟨hp fs, hq fs, (hp fs).trans (hp fs2).symm, (hq fs).trans (hq fs2).symm⟩

/-- Witness for C8: bypass on, gate on, loader never invoked even with
a conflicting reservation present. -/
theorem c8_bypass_short_circuit_witness :
    bypassEnabled envBypass = true
    ∧ precommitRun envBypass gCommit1 fs1 ptNone 0 = ⟨0, false, []⟩
    ∧ prepushRun envBypass gPush1 (some ("origin")) stdin1 fs1 ptNone 0 = ⟨0, false, []⟩ := by
  have h := c8_bypass_short_circuit envBypass gCommit1 gPush1 (some ("origin")) stdin1 fs1 fsNE
    ptNone 0 (Or.inr (by decide))
  exact ⟨by decide, h.1, h.2.1⟩

/-- C9 counterexample: when the second (rename-detection) subprocess
fails after the first succeeded, the collected path set is NOT empty —
the paths from the first call are retained, the snapshot is loaded, and
the run can exit 1, contradicting the claim that any enumeration
failure yields an empty set and exit 0 without loading the snapshot. -/
theorem c9_partial_failure_cex :
    gFail2.diffCachedStatus = none
    ∧ collectStagedPaths gFail2 = ["src/a.txt"]
    ∧ precommitRun envBlock gFail2 fs1 ptNone 0
        = ⟨1, true, [("src/a.txt", some ("B"), "src/a.txt")]⟩ := by
  exact ⟨rfl, by decide, by decide⟩

/-- C9 amended: if the FIRST staged-path subprocess fails, the
collected set is empty and the script exits 0 without loading the
snapshot; if only the second (rename-detection) subprocess fails, the
paths collected by the first call are retained and evaluation
proceeds. -/
theorem c9_first_failure_fail_open (env : Env) (fs : ReservationDir)
    (pt : String → Option Int) (now : Int) (st : Option String) (d : String)
    (hgate : gateEnabled env = true) (hbyp : bypassEnabled env = false)
    (hagent : agentMissing env = false) :
    collectStagedPaths ⟨none, st⟩ = []
    ∧ precommitRun env ⟨none, st⟩ fs pt now = ⟨0, false, []⟩
    ∧ collectStagedPaths ⟨some d, none⟩ = (splitNul d).filter (fun p => p != "") := by
  refine ⟨rfl, ?_, rfl⟩
  by_cases h4 : fs.dirExists <;>
    simp [precommitRun, hgate, hbyp, hagent, h4, collectStagedPaths]

/-- Witness for the amended C9: first call fails, script exits 0
without loading the snapshot even though a conflicting reservation
exists. -/
theorem c9_first_failure_fail_open_witness :
    gateEnabled envBlock = true
    ∧ precommitRun envBlock ⟨none, some ("")⟩ fs1 ptNone 0 = ⟨0, false, []⟩ := by
  exact ⟨by decide,
    (c9_first_failure_fail_open envBlock fs1 ptNone 0 (some ("")) ("x")
      (by decide) (by decide) (by decide)).2.1⟩

/-- C10: when the acting-agent identity is unset or empty, both scripts
exit 1 exactly when the gate is on and bypass is off, and exit 0
otherwise — the gate and bypass checks precede the identity check. -/
theorem c10_gate_bypass_precede_identity (env : Env) (g : CommitGit) (pg : PushGit)
    (argv1 : Option String) (stdin : String) (fs : ReservationDir)
    (pt : String → Option Int) (now : Int)
    (h : agentMissing env = true) :
    (precommitRun env g fs pt now).exitCode
        = (if gateEnabled env && !bypassEnabled env then 1 else 0)
    ∧ (prepushRun env pg argv1 stdin fs pt now).exitCode
        = (if gateEnabled env && !bypassEnabled env then 1 else 0) := by
  by_cases h1 : gateEnabled env <;>
    by_cases h2 : bypassEnabled env <;>
      constructor <;> simp [precommitRun, prepushRun, h, h1, h2]

/-- Witness for C10: with bypass on and identity unset the script exits
0; with bypass off and identity unset it exits 1. -/
theorem c10_gate_bypass_precede_identity_witness :
    agentMissing envBypass = true
    ∧ (precommitRun envBypass gCommit1 fs1 ptNone 0).exitCode = 0
    ∧ agentMissing envNoAgent = true
    ∧ (precommitRun envNoAgent gCommit1 fs1 ptNone 0).exitCode = 1 := by
  have ha := c10_gate_bypass_precede_identity envBypass gCommit1 gPush1 (some ("origin")) stdin1
    fs1 ptNone 0 (by decide)
  have hb := c10_gate_bypass_precede_identity envNoAgent gCommit1 gPush1 (some ("origin")) stdin1
    fs1 ptNone 0 (by decide)
  refine ⟨by decide, ?_, by decide, ?_⟩
  · rw [ha.1]; decide
  · rw [hb.1]; decide

end AgentMailGuard
